import Mathlib

/-!
Shallow embedding of `src/PulseExplorer.py` (interactive waveform browser).

The embedding covers the module-level constants (`output_dir`,
`output_formats`, lines 33-62), the trapezoidal-filter display-array
construction inside `DDFilter` (lines 159-161 and 251-258), and the body of
the interactive `runloop` (lines 648-815): its mutable session variables
become the fields of `LoopState`, one keystroke's processing becomes
`runloopStep`, and the external collaborators (the ROOT `TTree.Draw`
selection, the filesystem, the number of pulses per event, the run name
taken from the input file) become the fields of `Env`.

Machine integers in Python are unbounded, so indices are `Int`/`Nat`
directly.  Python `%` on a positive modulus agrees with `Int.emod`.
-/

namespace PulseExplorer

/-- Line 33 of the source: the default data directory string. -/
def default_datadir : String := "/home/jfcaron/NEWS-G/RMTL Test 6/SPC Data/"

/-- Model of Python `os.path.join a b` for a relative second component:
if `a` already ends with the separator, concatenate, else insert `"/"`. -/
def pathJoin (a b : String) : String :=
  if a.endsWith "/" then a ++ b else a ++ "/" ++ b

/-- Line 45: `output_dir = os.path.join(default_datadir,"plots")`. -/
def output_dir : String := pathJoin default_datadir "plots"

/-- Line 46: `output_formats = ['png']`. -/
def output_formats : List String := ["png"]

/-- Line 655: `xunits = ["Samples","microseconds"]`. -/
def xunits : List String := ["Samples", "microseconds"]

/-- The external collaborators the loop calls out to, held fixed for a
session: `sel c` is the ordered list of record indices produced by
`tree.Draw(">>entrylist", c, "entrylist")` for the cut string `c` (a
deterministic function of the fixed input tree); `num_pulses` is
`nevent.GetNPulses()` (line 103); `runname` (line 62); `isfile` models
`os.path.isfile`. -/
structure Env where
  sel : String → List Nat
  num_pulses : Nat
  runname : String
  isfile : String → Bool

/-- The mutable session variables of `runloop` (lines 650-664).
`entrylist` is the current `ROOT` entry list (as the list of selected
record indices); `entrylistN` is the Python variable assigned once at
line 664 from the initial entry list and never reassigned afterwards. -/
structure LoopState where
  OutputPulseType : Int
  event_idx : Int
  entry_idx : Int
  pulse_idx : Int
  xunits_i : Nat
  fixed_xzoom : Bool
  cut : String
  json_filename : String
  entrylist : List Nat
  entrylistN : Nat
deriving Repr, DecidableEq

/-- One keystroke of the interactive loop, with the data read at the
follow-up prompt attached.  `outputType` and `jump` carry the result of
Python `int(...)` on the entered string (`none` when the conversion
raises); `jsonFile` and `cutCmd` carry the entered string verbatim.
The eight arrow constructors are the keys at lines 780-795. -/
inductive Cmd where
  | quit
  | units
  | outputType (input : Option Int)
  | jsonFile (input : String)
  | jump (input : Option Int)
  | save
  | redraw
  | cutCmd (input : String)
  | zoom
  | left
  | right
  | shiftLeft
  | shiftRight
  | ctrlLeft
  | ctrlRight
  | ctrlShiftLeft
  | ctrlShiftRight
  | up
  | down
  | unknown (key : String)
deriving Repr, DecidableEq

/-- Lines 805-806: `while entry_idx < 0: entry_idx += entrylistN`.
When `N = 0` the Python loop never terminates; the model returns its
argument in that case (all loop theorems assume `0 < entrylistN`). -/
def addWhileNeg (a : Int) (N : Nat) : Int :=
  if a < 0 then
    if N = 0 then a
    else addWhileNeg (a + N) N
  else a
termination_by (-a).toNat
decreasing_by
  simp_wf
  omega

/-- Lines 804-807: add the increment's result through the `while` loop and
then `entry_idx % entrylistN` (Python `%`, which for a positive modulus
agrees with `Int.emod`).  Python raises `ZeroDivisionError` when
`entrylistN = 0`. -/
def normalizeEntry (a : Int) (N : Nat) : Int :=
  addWhileNeg a N % (N : Int)

/-- Model of `TEntryList.GetEntry(i)` (line 808): the `i`-th selected
record index, or `-1` when `i` is out of range. -/
def tEntryListGetEntry (l : List Nat) (i : Int) : Int :=
  if h : 0 ≤ i ∧ i.toNat < l.length then (l.get ⟨i.toNat, h.2⟩ : Int) else -1

/-- Model of Python `sep.join(parts)`. -/
def strJoin (sep : String) : List String → String
  | [] => ""
  | [s] => s
  | s :: rest => s ++ sep ++ strJoin sep rest

/-- Line 745: `outname = "_".join(map(str,[runname,event_idx,pulse_idx,OutputPulseType]))`. -/
def saveOutName (env : Env) (s : LoopState) : String :=
  strJoin "_" [env.runname, toString s.event_idx, toString s.pulse_idx,
               toString s.OutputPulseType]

/-- Lines 745-751: the full path names written by the save command, one
`c1.SaveAs(fulloutname+"."+of)` per entry of `output_formats`. -/
def savedFiles (env : Env) (s : LoopState) : List String :=
  output_formats.map (fun of => pathJoin output_dir (saveOutName env s) ++ "." ++ of)

/-- The observable outcome of one pass through the loop body: the new
session state, whether the plot is redrawn (`doupdate` at line 809),
the files written by a save, the message printed on the error line
(if any), and whether the loop `break`s (line 706). -/
structure StepOut where
  st : LoopState
  doupdate : Bool
  saved : List String
  errline : Option String
  quit : Bool
deriving Repr, DecidableEq

/-- Lines 803-808, shared by every non-quit command: apply the pending
increment, wrap via the `while` loop and `% entrylistN`, and recompute
`event_idx = entrylist.GetEntry(entry_idx)`. -/
def finishIteration (st : LoopState) (inc : Int) (doupdate : Bool)
    (saved : List String) (errline : Option String) : StepOut :=
  let e1 := normalizeEntry (st.entry_idx + inc) st.entrylistN
  { st := { st with entry_idx := e1,
                    event_idx := tEntryListGetEntry st.entrylist e1 },
    doupdate := doupdate, saved := saved, errline := errline, quit := false }

/-- One iteration of the `while True` loop of `runloop` (lines 669-815)
for the keystroke `c`, translated branch by branch from lines 705-801
and finished with the entry normalization of lines 803-808.  On `q` the
Python code `break`s before the normalization.  Note that the `cutCmd`
branch (lines 758-770) reassigns `entrylist` but not `entrylistN`,
exactly as the source does. -/
def runloopStep (env : Env) (s : LoopState) (c : Cmd) : StepOut :=
  match c with
  | .quit =>
      { st := s, doupdate := false, saved := [], errline := none, quit := true }
  | .units =>
      finishIteration { s with xunits_i := (s.xunits_i + 1) % 2 } 0 true [] none
  | .outputType input =>
      match input with
      | some k =>
          if -1 ≤ k ∧ k ≤ 9 then
            finishIteration { s with OutputPulseType := k } 0 true [] none
          else
            finishIteration s 0 true []
              (some "OutputPulseType must enter an integer from -1 to 9.")
      | none =>
          finishIteration s 0 true []
            (some "OutputPulseType must enter an integer from -1 to 9.")
  | .jsonFile name =>
      if env.isfile name then
        finishIteration { s with json_filename := name } 0 true [] none
      else
        finishIteration s 0 true [] (some "File does not exist.")
  | .jump input =>
      match input with
      | some k => finishIteration { s with entry_idx := k } 0 true [] none
      | none =>
          finishIteration s 0 true [] (some "Entry numbers must be integers.")
  | .save =>
      finishIteration s 0 false (savedFiles env s)
        (some ("Saved to " ++ pathJoin output_dir (saveOutName env s)))
  | .redraw =>
      finishIteration s 0 true [] none
  | .cutCmd input =>
      finishIteration { s with cut := input, entrylist := env.sel input }
        0 true [] none
  | .zoom =>
      if s.fixed_xzoom then
        finishIteration { s with fixed_xzoom := false } 0 true [] none
      else
        finishIteration { s with fixed_xzoom := true } 0 false [] none
  | .left => finishIteration s (-1) true [] none
  | .right => finishIteration s 1 true [] none
  | .shiftLeft => finishIteration s (-10) true [] none
  | .shiftRight => finishIteration s 10 true [] none
  | .ctrlLeft => finishIteration s (-100) true [] none
  | .ctrlRight => finishIteration s 100 true [] none
  | .ctrlShiftLeft => finishIteration s (-1000) true [] none
  | .ctrlShiftRight => finishIteration s 1000 true [] none
  | .up =>
      finishIteration
        { s with pulse_idx := min (s.pulse_idx + 1) ((env.num_pulses : Int) - 1) }
        0 true [] none
  | .down =>
      finishIteration { s with pulse_idx := max (s.pulse_idx - 1) 0 } 0 true [] none
  | .unknown key =>
      finishIteration s 0 true [] (some ("Error, not a command: " ++ key))

/-- Lines 650-664: the session state before the first pass through the
loop (the first pass itself runs with the synthetic keystroke `r`,
lines 696-700).  `entrylistN = entrylist.GetN()` is captured here, once. -/
def initState (env : Env) (json0 : String) : LoopState :=
  { OutputPulseType := -1
    event_idx := 0
    entry_idx := 0
    pulse_idx := 0
    xunits_i := 0
    fixed_xzoom := false
    cut := ""
    json_filename := json0
    entrylist := env.sel ""
    entrylistN := (env.sel "").length }

/-- Model of the Python negative-stop slice `l[:-k]`: empty for `k = 0`
(then the slice is `l[:0]`... in the source `k ≥ 1` always), otherwise
the first `length - k` elements. -/
def pySliceUpToNeg (l : List α) (k : Nat) : List α :=
  if k = 0 then [] else l.take (l.length - k)

/-- Lines 159-161 and 251-258 of `DDFilter`, for `OutputPulseType == 1`:
`trapcorr = TrapGapSamples + TrapRiseSamples//2 + 1`,
`trapcorr0 = ddPulse.GetArray()[1]`, and
`dd_array = [trapcorr0]*trapcorr + preddarray[:-trapcorr]`.
The element type of the output array is left generic (its values are
only moved, never computed with). -/
def trapDisplay [Inhabited α] (ddOut : List α)
    (trapGapSamples trapRiseSamples : Nat) : List α :=
  let trapcorr := trapGapSamples + trapRiseSamples / 2 + 1
  let trapcorr0 := ddOut.getD 1 default
  List.replicate trapcorr trapcorr0 ++ pySliceUpToNeg ddOut trapcorr

/-! Helper lemmas about the entry-index normalization. -/

/-- Running the `while entry_idx < 0` loop does not change the residue
modulo `entrylistN`. -/
theorem addWhileNeg_emod (a : Int) (N : Nat) :
    addWhileNeg a N % (N : Int) = a % (N : Int) := by
  induction a, N using addWhileNeg.induct with
  | case1 a ha =>
      rw [addWhileNeg, if_pos ha, if_pos rfl]
  | case2 a N ha hN ih =>
      rw [addWhileNeg, if_pos ha, if_neg hN]
      rw [ih, show a + (N : Int) = a + 1 * N by ring, Int.add_mul_emod_self]
  | case3 a N ha =>
      rw [addWhileNeg, if_neg ha]

/-- For a positive modulus the whole normalization (lines 804-807) is
just the Euclidean remainder, which is how Python `%` behaves. -/
theorem normalizeEntry_pos (a : Int) (N : Nat) :
    normalizeEntry a N = a % (N : Int) := by
  rw [normalizeEntry, addWhileNeg_emod]

/-- The normalized entry index lies in `[0, N)` when `0 < N`. -/
theorem normalizeEntry_bounds (a : Int) (N : Nat) (h : 0 < N) :
    0 ≤ normalizeEntry a N ∧ normalizeEntry a N < (N : Int) := by
  rw [normalizeEntry_pos]
  constructor
  · exact Int.emod_nonneg a (by omega)
  · exact Int.emod_lt_of_pos a (by exact_mod_cast h)

/-- An index already inside `[0, N)` is left unchanged by normalization. -/
theorem normalizeEntry_id (a : Int) (N : Nat) (h0 : 0 ≤ a)
    (h1 : a < (N : Int)) : normalizeEntry a N = a := by
  rw [normalizeEntry_pos]
  exact Int.emod_eq_of_lt h0 h1

/-! Concrete fixtures used to instantiate the hypotheses of the claim
theorems: a small environment whose empty cut selects two records, and a
session state consistent with it (the `event_idx` field equals
`entrylist.GetEntry(entry_idx)`, as holds at every prompt of the loop). -/

/-- A concrete environment: the empty cut selects records 3 and 4, any
other cut selects record 3 only; no file exists. -/
def envW : Env :=
  { sel := fun c => if c = "" then [3, 4] else [3]
    num_pulses := 3
    runname := "ul03x001_T1"
    isfile := fun _ => false }

/-- A concrete session state consistent with `envW` and reachable at a
prompt of the loop. -/
def sW : LoopState :=
  { OutputPulseType := -1
    event_idx := 3
    entry_idx := 0
    pulse_idx := 0
    xunits_i := 0
    fixed_xzoom := false
    cut := ""
    json_filename := "a.json"
    entrylist := [3, 4]
    entrylistN := 2 }

/-- Claim C2: toggling the time-unit command twice returns the unit index
to its original value, a single toggle keeps the index a valid one, and a
single toggle switches the displayed unit between `"Samples"` and
`"microseconds"` (lines 707-708 and 655-656). -/
theorem C2_unit_toggle_involutive (env : Env) (s : LoopState)
    (h : s.xunits_i < 2) :
    (runloopStep env (runloopStep env s .units).st .units).st.xunits_i
        = s.xunits_i ∧
    (runloopStep env s .units).st.xunits_i < 2 ∧
    xunits.getD (runloopStep env s .units).st.xunits_i ""
        ≠ xunits.getD s.xunits_i "" ∧
    (s.xunits_i = 0 →
      xunits.getD (runloopStep env s .units).st.xunits_i "" = "microseconds") ∧
    (s.xunits_i = 1 →
      xunits.getD (runloopStep env s .units).st.xunits_i "" = "Samples") := by
  have h2 : s.xunits_i = 0 ∨ s.xunits_i = 1 := by omega
  rcases h2 with h2 | h2 <;>
    simp [runloopStep, finishIteration, xunits, h2]

/-- Witness for C2 at the concrete state `sW` (unit index 0). -/
theorem C2_unit_toggle_involutive_witness :
    sW.xunits_i < 2 ∧
    (runloopStep envW (runloopStep envW sW .units).st .units).st.xunits_i
        = sW.xunits_i :=
  ⟨by decide, (C2_unit_toggle_involutive envW sW (by decide)).1⟩

/-- Claim C3: entering the same cut string twice in succession leaves the
same entry list as entering it once, and that list is exactly the
selection produced for that cut (lines 758-770). -/
theorem C3_cut_idempotent (env : Env) (s : LoopState) (e : String) :
    (runloopStep env (runloopStep env s (.cutCmd e)).st (.cutCmd e)).st.entrylist
        = (runloopStep env s (.cutCmd e)).st.entrylist ∧
    (runloopStep env s (.cutCmd e)).st.entrylist = env.sel e := by
  simp [runloopStep, finishIteration]

/-- Claim C4: the save command changes none of the navigation state —
entry index, event index, pulse index, output stage, unit index, zoom
flag, cut string, JSON file name — and does not trigger a redraw
(`doupdate = False`, lines 743-754).  The hypotheses say the entry index
is in range and the event index is the one the loop computed from it,
which holds at every prompt (lines 803-808). -/
theorem C4_save_preserves_state (env : Env) (s : LoopState)
    (h0 : 0 ≤ s.entry_idx) (h1 : s.entry_idx < (s.entrylistN : Int))
    (hev : s.event_idx = tEntryListGetEntry s.entrylist s.entry_idx) :
    (runloopStep env s .save).st.entry_idx = s.entry_idx ∧
    (runloopStep env s .save).st.event_idx = s.event_idx ∧
    (runloopStep env s .save).st.pulse_idx = s.pulse_idx ∧
    (runloopStep env s .save).st.OutputPulseType = s.OutputPulseType ∧
    (runloopStep env s .save).st.xunits_i = s.xunits_i ∧
    (runloopStep env s .save).st.fixed_xzoom = s.fixed_xzoom ∧
    (runloopStep env s .save).st.cut = s.cut ∧
    (runloopStep env s .save).st.json_filename = s.json_filename ∧
    (runloopStep env s .save).doupdate = false := by
  have he : normalizeEntry s.entry_idx s.entrylistN = s.entry_idx :=
    normalizeEntry_id _ _ h0 h1
  simp [runloopStep, finishIteration, he, ← hev]

/-- Witness for C4 at the concrete state `sW`. -/
theorem C4_save_preserves_state_witness :
    (0 : Int) ≤ sW.entry_idx ∧
    (runloopStep envW sW .save).st.entry_idx = sW.entry_idx ∧
    (runloopStep envW sW .save).doupdate = false :=
  ⟨by decide,
   (C4_save_preserves_state envW sW (by decide) (by decide) (by decide)).1,
   (C4_save_preserves_state envW sW (by decide) (by decide) (by decide)).2.2.2.2.2.2.2.2⟩

/-- Claim C5: the three locally-caught user-input errors — an
output-stage entry that is not an integer in `[-1, 9]` (lines 709-721), a
non-integer entry at the jump prompt (lines 731-742), and a nonexistent
file at the JSON prompt (lines 722-730) — each display an inline error
message, do not end the session, and leave the corresponding state
variable (`OutputPulseType`, `entry_idx`, `json_filename`) unchanged. -/
theorem C5_input_errors_caught (env : Env) (s : LoopState)
    (inp : Option Int) (name : String)
    (h0 : 0 ≤ s.entry_idx) (h1 : s.entry_idx < (s.entrylistN : Int))
    (hbad : ∀ k, inp = some k → ¬(-1 ≤ k ∧ k ≤ 9))
    (hfile : env.isfile name = false) :
    ((runloopStep env s (.outputType inp)).quit = false ∧
     (runloopStep env s (.outputType inp)).errline.isSome = true ∧
     (runloopStep env s (.outputType inp)).st.OutputPulseType
        = s.OutputPulseType) ∧
    ((runloopStep env s (.jump none)).quit = false ∧
     (runloopStep env s (.jump none)).errline.isSome = true ∧
     (runloopStep env s (.jump none)).st.entry_idx = s.entry_idx) ∧
    ((runloopStep env s (.jsonFile name)).quit = false ∧
     (runloopStep env s (.jsonFile name)).errline.isSome = true ∧
     (runloopStep env s (.jsonFile name)).st.json_filename
        = s.json_filename) := by
  have he : normalizeEntry s.entry_idx s.entrylistN = s.entry_idx :=
    normalizeEntry_id _ _ h0 h1
  cases inp with
  | none => simp [runloopStep, finishIteration, he, hfile]
  | some k =>
      have hk := hbad k rfl
      simp [runloopStep, finishIteration, he, hfile, hk]

/-- Witness for C5: stage input `12` (out of range), a failed integer
parse at the jump prompt, and a missing file at the JSON prompt, all at
the concrete state `sW`. -/
theorem C5_input_errors_caught_witness :
    (0 : Int) ≤ sW.entry_idx ∧
    (runloopStep envW sW (.outputType (some 12))).st.OutputPulseType
        = sW.OutputPulseType ∧
    (runloopStep envW sW (.jump none)).st.entry_idx = sW.entry_idx ∧
    (runloopStep envW sW (.jsonFile "missing.json")).st.json_filename
        = sW.json_filename :=
  ⟨by decide,
   (C5_input_errors_caught envW sW (some 12) "missing.json" (by decide)
      (by decide) (fun k hk => by cases hk; decide) (by decide)).1.2.2,
   (C5_input_errors_caught envW sW (some 12) "missing.json" (by decide)
      (by decide) (fun k hk => by cases hk; decide) (by decide)).2.1.2.2,
   (C5_input_errors_caught envW sW (some 12) "missing.json" (by decide)
      (by decide) (fun k hk => by cases hk; decide) (by decide)).2.2.2.2⟩

/-- Claim C6: the eight arrow keystrokes (lines 780-795) move the entry
index by exactly -1/+1, -10/+10, -100/+100 and -1000/+1000 modulo the
selection size, for every starting entry index.  The first hypothesis
says the recorded list length `entrylistN` agrees with the active
selection (true whenever no cut has been entered since startup); the
second says the selection is nonempty. -/
theorem C6_arrow_increments (env : Env) (s : LoopState)
    (hsync : s.entrylistN = (env.sel s.cut).length)
    (_hN : 0 < s.entrylistN) :
    (runloopStep env s .left).st.entry_idx
        = (s.entry_idx - 1) % ((env.sel s.cut).length : Int) ∧
    (runloopStep env s .right).st.entry_idx
        = (s.entry_idx + 1) % ((env.sel s.cut).length : Int) ∧
    (runloopStep env s .shiftLeft).st.entry_idx
        = (s.entry_idx - 10) % ((env.sel s.cut).length : Int) ∧
    (runloopStep env s .shiftRight).st.entry_idx
        = (s.entry_idx + 10) % ((env.sel s.cut).length : Int) ∧
    (runloopStep env s .ctrlLeft).st.entry_idx
        = (s.entry_idx - 100) % ((env.sel s.cut).length : Int) ∧
    (runloopStep env s .ctrlRight).st.entry_idx
        = (s.entry_idx + 100) % ((env.sel s.cut).length : Int) ∧
    (runloopStep env s .ctrlShiftLeft).st.entry_idx
        = (s.entry_idx - 1000) % ((env.sel s.cut).length : Int) ∧
    (runloopStep env s .ctrlShiftRight).st.entry_idx
        = (s.entry_idx + 1000) % ((env.sel s.cut).length : Int) := by
  simp only [runloopStep, finishIteration, normalizeEntry_pos, ← hsync]
  and_intros <;> trivial

/-- Witness for C6 at the concrete state `sW` (selection size 2). -/
theorem C6_arrow_increments_witness :
    sW.entrylistN = (envW.sel sW.cut).length ∧
    (runloopStep envW sW .left).st.entry_idx
        = (sW.entry_idx - 1) % ((envW.sel sW.cut).length : Int) :=
  ⟨by decide, (C6_arrow_increments envW sW (by decide) (by decide)).1⟩

/-- Claim C7: for every session state the save command writes one file
per configured output format, named by joining the run identifier, the
event index, the pulse index and the output-stage identifier with
underscores, placed in the configured output directory, with the format
as extension (lines 743-752 and 45-46). -/
theorem C7_save_filenames (env : Env) (s : LoopState) :
    (runloopStep env s .save).saved
        = output_formats.map (fun fmt =>
            pathJoin output_dir
              (env.runname ++ "_" ++ toString s.event_idx ++ "_" ++
               toString s.pulse_idx ++ "_" ++ toString s.OutputPulseType)
              ++ "." ++ fmt) ∧
    (runloopStep env s .save).saved.length = output_formats.length := by
  simp [runloopStep, finishIteration, savedFiles, saveOutName, strJoin,
        String.append_assoc]

/-- Claim C8: the pulse index is clamped, not wrapped (lines 796-799):
up-arrow sets it to `min (pulse_idx + 1) (num_pulses - 1)`, down-arrow to
`max (pulse_idx - 1) 0`, it stays inside `[0, num_pulses - 1]`, and a
press at either end leaves it unchanged. -/
theorem C8_pulse_clamped (env : Env) (s : LoopState)
    (hp0 : 0 ≤ s.pulse_idx)
    (hp1 : s.pulse_idx ≤ (env.num_pulses : Int) - 1) :
    (runloopStep env s .up).st.pulse_idx
        = min (s.pulse_idx + 1) ((env.num_pulses : Int) - 1) ∧
    (runloopStep env s .down).st.pulse_idx = max (s.pulse_idx - 1) 0 ∧
    (0 ≤ (runloopStep env s .up).st.pulse_idx ∧
     (runloopStep env s .up).st.pulse_idx ≤ (env.num_pulses : Int) - 1) ∧
    (0 ≤ (runloopStep env s .down).st.pulse_idx ∧
     (runloopStep env s .down).st.pulse_idx ≤ (env.num_pulses : Int) - 1) ∧
    (s.pulse_idx = (env.num_pulses : Int) - 1 →
      (runloopStep env s .up).st.pulse_idx = s.pulse_idx) ∧
    (s.pulse_idx = 0 →
      (runloopStep env s .down).st.pulse_idx = s.pulse_idx) := by
  simp only [runloopStep, finishIteration]
  and_intros <;> first | trivial | omega

/-- Witness for C8 at the concrete state `sW` (`num_pulses = 3`). -/
theorem C8_pulse_clamped_witness :
    (0 : Int) ≤ sW.pulse_idx ∧
    (runloopStep envW sW .up).st.pulse_idx
        = min (sW.pulse_idx + 1) ((envW.num_pulses : Int) - 1) :=
  ⟨by decide, (C8_pulse_clamped envW sW (by decide) (by decide)).1⟩

/-- Claim C9: the jump command accepts every integer, raises no error,
and reduces the entered value modulo the selection size (the `while`
loop at lines 805-806 plus the `%` at line 807), so the resulting entry
index always lands inside the selection (lines 731-742 and 803-808). -/
theorem C9_jump_wraps (env : Env) (s : LoopState) (n : Int)
    (hsync : s.entrylistN = (env.sel s.cut).length)
    (hN : 0 < s.entrylistN) :
    (runloopStep env s (.jump (some n))).errline = none ∧
    (runloopStep env s (.jump (some n))).st.entry_idx
        = n % ((env.sel s.cut).length : Int) ∧
    0 ≤ (runloopStep env s (.jump (some n))).st.entry_idx ∧
    (runloopStep env s (.jump (some n))).st.entry_idx
        < ((env.sel s.cut).length : Int) := by
  simp only [runloopStep, finishIteration, normalizeEntry_pos, add_zero,
             ← hsync]
  and_intros <;> first
    | trivial
    | exact Int.emod_nonneg _ (by omega)
    | exact Int.emod_lt_of_pos _ (by exact_mod_cast hN)

/-- Witness for C9: jumping to the negative entry number `-7` with
selection size 2 lands on entry `1`. -/
theorem C9_jump_wraps_witness :
    sW.entrylistN = (envW.sel sW.cut).length ∧
    (runloopStep envW sW (.jump (some (-7)))).st.entry_idx
        = (-7) % ((envW.sel sW.cut).length : Int) :=
  ⟨by decide, (C9_jump_wraps envW sW (-7) (by decide) (by decide)).2.1⟩

/-- Claim C10: for output stage 1 the displayed sample array is
`trapcorr` copies of output element 1 followed by the first
`N - trapcorr` output elements, and has length exactly `N`, given
`trapcorr ≤ N` (lines 159-161 and 251-258; element 1 requires `N ≥ 2`,
otherwise the Python indexing itself raises). -/
theorem C10_trap_display_shape {α : Type} [Inhabited α] (ddOut : List α)
    (trapGapSamples trapRiseSamples : Nat)
    (hle : trapGapSamples + trapRiseSamples / 2 + 1 ≤ ddOut.length)
    (h1 : 1 < ddOut.length) :
    trapDisplay ddOut trapGapSamples trapRiseSamples
        = List.replicate (trapGapSamples + trapRiseSamples / 2 + 1)
            (ddOut.get ⟨1, h1⟩)
          ++ ddOut.take
              (ddOut.length - (trapGapSamples + trapRiseSamples / 2 + 1)) ∧
    (trapDisplay ddOut trapGapSamples trapRiseSamples).length
        = ddOut.length := by
  have hc : trapGapSamples + trapRiseSamples / 2 + 1 ≠ 0 := by omega
  constructor
  · simp only [trapDisplay, pySliceUpToNeg, if_neg hc]
    rw [List.getD_eq_getElem ddOut default h1, List.get_eq_getElem]
  · simp only [trapDisplay, pySliceUpToNeg, if_neg hc, List.length_append,
               List.length_replicate, List.length_take]
    omega

/-- Witness for C10: a four-element output array with
`TrapGapSamples = 1`, `TrapRiseSamples = 2`, so `trapcorr = 3`. -/
theorem C10_trap_display_shape_witness :
    1 + 2 / 2 + 1 ≤ ([5, 7, 9, 11] : List Int).length ∧
    trapDisplay ([5, 7, 9, 11] : List Int) 1 2
        = List.replicate (1 + 2 / 2 + 1)
            (([5, 7, 9, 11] : List Int).get ⟨1, by decide⟩)
          ++ ([5, 7, 9, 11] : List Int).take
              (([5, 7, 9, 11] : List Int).length - (1 + 2 / 2 + 1)) :=
  ⟨by decide,
   (C10_trap_display_shape ([5, 7, 9, 11] : List Int) 1 2
      (by decide) (by decide)).1⟩

/-- A concrete environment exhibiting the stale `entrylistN`: the empty
cut selects five records, any other cut selects the two records 10
and 11. -/
def envC1 : Env :=
  { sel := fun c => if c = "" then [0, 1, 2, 3, 4] else [10, 11]
    num_pulses := 1
    runname := "run"
    isfile := fun _ => false }

/-- The session state after the synthetic first redraw of the loop,
started in `envC1` (five-entry initial selection). -/
def sC1_afterStart : LoopState :=
  (runloopStep envC1 (initState envC1 "a.json") .redraw).st

/-- The session state after then jumping to entry number 4. -/
def sC1_afterJump : LoopState :=
  (runloopStep envC1 sC1_afterStart (.jump (some 4))).st

/-- Claim C1 fails on the code: `entrylistN` is assigned once at line 664
and never refreshed when the `c` command (lines 758-770) replaces
`entrylist`, so after jumping to entry 4 of a five-entry selection and
then entering a cut that matches only two records, the wrap at lines
803-807 still reduces modulo 5, leaving `entry_idx = 4` outside the
active selection, and `entrylist.GetEntry(4)` yields `-1`.  This theorem
evaluates the loop at that failing input. -/
theorem C1_entrylistN_stale_after_cut :
    (runloopStep envC1 sC1_afterJump (.cutCmd "EventNum>9")).st.entrylist.length
        = 2 ∧
    (runloopStep envC1 sC1_afterJump (.cutCmd "EventNum>9")).st.entry_idx = 4 ∧
    ¬((runloopStep envC1 sC1_afterJump (.cutCmd "EventNum>9")).st.entry_idx <
        ((runloopStep envC1 sC1_afterJump
            (.cutCmd "EventNum>9")).st.entrylist.length : Int)) ∧
    (runloopStep envC1 sC1_afterJump (.cutCmd "EventNum>9")).st.event_idx
        = -1 := by
  have hne : ¬("EventNum>9" = "") := by decide
  simp only [sC1_afterJump, sC1_afterStart, initState, envC1, runloopStep,
             finishIteration, tEntryListGetEntry, normalizeEntry_pos,
             if_neg hne]
  norm_num

end PulseExplorer
